import Mathlib

/-!
# XdgThumbnailer/thumbnail.c

A shallow embedding of the request pipeline of SameBoy's XDG thumbnailer
(`load_boot_roms`, `generate_thumbnail`, `on_file_ready`, `on_thumbnailing_end`,
`start_thumbnailing`) together with the properties of its signal traces.

Conventions of the embedding:

* C strings are `String`; a possibly-NULL `char const *` is `Option String`.
* Everything the code does that is observable from outside is appended to a `World`:
  the signals emitted on `thumbnailer_interface`, the file loads started, the calls
  made into the emulator core, the handles passed to `finished_task`, and whether
  the process was aborted.
* The outcome of an asynchronous file read and the instant at which the
  `GCancellable` is signalled are inputs of the model.
* A GLib completion callback is run as the continuation of the call that completes
  the task; the main loop is assumed to dispatch it.
-/

namespace XdgThumbnailer

/-! ## Constants and build parameters -/

/-- The C enumeration `FileKind`. -/
inductive FileKind where
  | KIND_GB
  | KIND_GBC
  | KIND_ISX
  deriving DecidableEq, Repr

/-- The macro `BOOT_ROM_SIZE`: the two parts of the boot ROM, stored contiguously. -/
def BOOT_ROM_SIZE : Nat := 0x100 + 0x800

/-- What the translation unit takes from outside `thumbnail.c`: the enumerator
`ERROR_UNKNOWN_SCHEME_OR_MIME` (declared in `main.h`), the macro `DATA_DIR` (given by
the build system) and the size of a `char *` on the target, which is what
`sizeof(boot_rom)` denotes since `boot_rom` is declared `static char *boot_rom`. -/
structure Build where
  ERROR_UNKNOWN_SCHEME_OR_MIME : Int
  DATA_DIR : String
  sizeof_char_ptr : Nat
  deriving Repr

/-- The quark `THUMBNAILING_ERROR_DOMAIN`, represented by its string. -/
def THUMBNAILING_ERROR_DOMAIN : String := "thumbnailing"

/-- GLib's `G_IO_ERROR` quark, represented by its string. -/
def G_IO_ERROR : String := "g-io-error-quark"

/-- GLib's `G_IO_ERROR_CANCELLED`. -/
def G_IO_ERROR_CANCELLED : Int := 19

/-- GLib's `G_PRIORITY_HIGH`. -/
def G_PRIORITY_HIGH : Int := -100

/-- GLib's `G_PRIORITY_DEFAULT`. -/
def G_PRIORITY_DEFAULT : Int := 0

/-- A `GError`. -/
structure GError where
  domain : String
  code : Int
  message : String
  deriving DecidableEq, Repr

/-! ## String comparison -/

/-- C `strcmp` on the characters of two strings: negative, zero or positive as
the first string is smaller than, equal to or greater than the second. The end of a
list plays the role of the terminating NUL. -/
def strcmp : List Char → List Char → Int
  | [], [] => 0
  | [], _ :: _ => -1
  | _ :: _, [] => 1
  | a :: as, b :: bs =>
    if a = b then strcmp as bs else if a.toNat < b.toNat then -1 else 1

/-- GLib's `g_strcmp0`: `strcmp` that accepts NULL, which sorts before every string. -/
def g_strcmp0 : Option String → Option String → Int
  | none, none => 0
  | none, some _ => -1
  | some _, none => 1
  | some s, some t => strcmp s.data t.data

/-! ## Boot ROM loading -/

/-- Outcome of a GLib file read (`g_file_get_contents`, `g_file_load_contents_finish`):
the bytes read, or the message of the `GError` that was set. -/
inductive ReadOutcome where
  | ok (contents : List Nat)
  | failed (message : String)
  deriving DecidableEq, Repr

/-- The path `boot_rom_path` of `load_boot_roms`. -/
def boot_rom_path (b : Build) : String := b.DATA_DIR ++ "/cgb_boot_fast.bin"

/-- The function `load_boot_roms`, given the outcome of `g_file_get_contents` on
`boot_rom_path`. `Except.error msg` is the fatal `g_error(msg)`, which terminates the
process; `Except.ok rom` is a normal return, with `rom` the new value of the global
`boot_rom`. -/
def load_boot_roms (b : Build) (read : ReadOutcome) : Except String (List Nat) :=
  match read with
  | .failed message =>
    .error ("Error loading boot ROM from \"" ++ boot_rom_path b ++ "\": " ++ message)
  | .ok contents =>
    if contents.length ≠ BOOT_ROM_SIZE then
      .error ("Error loading boot ROM from \"" ++ boot_rom_path b
        ++ "\": expected to read " ++ toString BOOT_ROM_SIZE ++ " bytes, got "
        ++ toString contents.length)
    else
      .ok contents

/-- A run of `load_boot_roms` completes normally when it returns instead of
reaching `g_error`. -/
def completesNormally (r : Except String (List Nat)) : Bool :=
  match r with
  | .ok _ => true
  | .error _ => false

/-! ## Kind classification -/

/-- The classification chain of `start_thumbnailing` (the `g_strcmp0` cascade):
`some kind` when a branch assigns `kind`, `none` when the final `else` is taken. -/
def classify (mime_type : Option String) : Option FileKind :=
  if g_strcmp0 mime_type (some "application/x-gameboy-color-rom") = 0 then
    some .KIND_GBC
  else if g_strcmp0 mime_type (some "application/x-gameboy-rom") = 0 then
    some .KIND_GB
  else if g_strcmp0 mime_type (some "application/x-gameboy-isx") = 0 then
    some .KIND_ISX
  else
    none

/-! ## Cancellation -/

/-- The three places, in program order, at which a request reads its cancellation
token: `g_task_return_error_if_cancelled` in `on_file_ready`, then
`g_task_propagate_boolean` and `g_cancellable_is_cancelled` in `on_thumbnailing_end`. -/
inductive Point where
  | fileReady
  | propagate
  | errorCheck
  deriving DecidableEq, Repr

/-- Position of an observation point in program order. -/
def Point.idx : Point → Nat
  | .fileReady => 0
  | .propagate => 1
  | .errorCheck => 2

/-- A `GCancellable *` as the request sees it. A cancellable is a latch: once
`g_cancellable_cancel` has run it stays signalled (the code never resets it).
`some k` says the token is signalled from observation point number `k` on (`some 0`:
before the file load completes); `none` is a token that is never signalled during the
request, which is also how a NULL cancellable behaves. -/
abbrev GCancellable := Option Nat

/-- GLib's `g_cancellable_is_cancelled`, read at observation point `p`. -/
def g_cancellable_is_cancelled (cancellable : GCancellable) (p : Point) : Bool :=
  match cancellable with
  | none => false
  | some k => decide (k ≤ p.idx)

/-- The error set by `g_cancellable_set_error_if_cancelled`. -/
def cancelledError : GError :=
  { domain := G_IO_ERROR, code := G_IO_ERROR_CANCELLED, message := "Operation was cancelled" }

/-! ## Observable world -/

/-- Signals emitted on `thumbnailer_interface` with `g_signal_emit_by_name`. -/
inductive Signal where
  | started (handle : Nat)
  | ready (handle : Nat) (uri : String)
  | error (handle : Nat) (uri : String) (code : Int) (message : String)
  | finished (handle : Nat)
  deriving DecidableEq, Repr

/-- Calls made into the emulator core (`Core/gb.h`), with the arguments that matter:
the buffer and the size handed over. -/
inductive EngineCall where
  | GB_init
  | GB_load_boot_rom_from_buffer (buffer : List Nat) (size : Nat)
  | GB_load_rom_from_buffer (buffer : List Nat) (size : Nat)
  | GB_free
  deriving DecidableEq, Repr

/-- Everything a request does that can be observed from outside, oldest event first. -/
structure World where
  signals : List Signal
  loads : List String
  engine : List EngineCall
  retired : List Nat
  aborted : Bool
  deriving DecidableEq, Repr

/-- The world before the request. -/
def World.init : World :=
  { signals := [], loads := [], engine := [], retired := [], aborted := false }

/-- The call `g_signal_emit_by_name(thumbnailer_interface, ...)`. -/
def g_signal_emit_by_name (w : World) (s : Signal) : World :=
  { w with signals := w.signals ++ [s] }

/-- A call into the emulator core. -/
def callEngine (w : World) (c : EngineCall) : World :=
  { w with engine := w.engine ++ [c] }

/-- The call `finished_task(handle)` (declared in `tasks.h`): the handle is retired. -/
def finished_task (w : World) (handle : Nat) : World :=
  { w with retired := w.retired ++ [handle] }

/-- Process termination (`g_assert_not_reached` in a build with GLib assertions enabled,
which is the default; a NULL dereference): nothing happens afterwards. -/
def abort (w : World) : World :=
  { w with aborted := true }

/-! ## Tasks -/

/-- The C struct `TaskData`. -/
structure TaskData where
  contents : List Nat
  length : Nat
  kind : FileKind
  deriving DecidableEq, Repr

/-- What a `GTask` has been completed with. -/
inductive TaskResult where
  | pending
  | boolean (value : Bool)
  | error (e : GError)
  deriving DecidableEq, Repr

/-- The fields of a `GTask` that the code uses. Its callback is always
`on_thumbnailing_end` and its callback data is the handle. -/
structure GTask where
  name : String
  cancellable : GCancellable
  priority : Int
  handle : Nat
  result : TaskResult
  deriving DecidableEq, Repr

/-- GLib's `g_task_propagate_boolean`: the returned boolean and the error it sets.
A task checks its cancellable first (`check_cancellable` is on by default), then its
stored error, then its stored value. -/
def g_task_propagate_boolean (task : GTask) : Bool × Option GError :=
  if g_cancellable_is_cancelled task.cancellable .propagate then
    (false, some cancelledError)
  else
    match task.result with
    | .error e => (false, some e)
    | .boolean value => (value, none)
    | .pending => (false, none)

/-- The callback `on_thumbnailing_end`, run on a completed task. -/
def on_thumbnailing_end (task : GTask) (w : World) : World :=
  let handle := task.handle
  let uri := task.name
  let finish := fun (w : World) =>
    finished_task (g_signal_emit_by_name w (.finished handle)) handle
  let res := g_task_propagate_boolean task
  if res.1 then
    finish (g_signal_emit_by_name w (.ready handle uri))
  else if !g_cancellable_is_cancelled task.cancellable .errorCheck then
    -- If the task was cancelled, do not emit an error response.
    match res.2 with
    | some error => finish (g_signal_emit_by_name w (.error handle uri error.code error.message))
    | none => abort w
  else
    finish w

/-- GLib's `g_task_return_boolean`: the task is completed with a value and its
callback is dispatched. -/
def g_task_return_boolean (task : GTask) (value : Bool) (w : World) : World :=
  on_thumbnailing_end { task with result := .boolean value } w

/-- GLib's `g_task_return_new_error`: the task is completed with a new error and its
callback is dispatched. -/
def g_task_return_new_error (task : GTask) (domain : String) (code : Int)
    (message : String) (w : World) : World :=
  on_thumbnailing_end
    { task with result := .error { domain := domain, code := code, message := message } } w

/-- GLib's `g_task_return_error_if_cancelled`: when the cancellable is signalled the
task is completed with the cancellation error (and the call returns TRUE, here
`some` of the resulting world); otherwise nothing happens (FALSE, here `none`). -/
def g_task_return_error_if_cancelled (task : GTask) (w : World) : Option World :=
  if g_cancellable_is_cancelled task.cancellable .fileReady then
    some (on_thumbnailing_end { task with result := .error cancelledError } w)
  else
    none

/-- The thread function `generate_thumbnail`. `boot_rom` is the global buffer set by
`load_boot_roms`. -/
def generate_thumbnail (b : Build) (boot_rom : List Nat) (task : GTask)
    (task_data : TaskData) (w : World) : World :=
  let w := callEngine w .GB_init
  let w := callEngine w (.GB_load_boot_rom_from_buffer boot_rom b.sizeof_char_ptr)
  if task_data.kind = .KIND_ISX then
    abort w -- g_assert_not_reached(); TODO: implement GB_load_isx_from_buffer
  else
    let w := callEngine w (.GB_load_rom_from_buffer task_data.contents task_data.length)
    let w := callEngine w .GB_free
    g_task_return_boolean task true w

/-- GLib's `g_task_run_in_thread` with `generate_thumbnail`: the thread function is
run on a worker (a task does not return on cancel by default, so it always runs). -/
def g_task_run_in_thread (b : Build) (boot_rom : List Nat) (task : GTask)
    (task_data : TaskData) (w : World) : World :=
  generate_thumbnail b boot_rom task task_data w

/-- The callback `on_file_ready`, given the outcome `res` of
`g_file_load_contents_finish`. -/
def on_file_ready (b : Build) (boot_rom : List Nat) (res : ReadOutcome) (task : GTask)
    (task_data : TaskData) (w : World) : World :=
  let uri := task.name
  match res with
  | .failed message =>
    g_task_return_new_error task THUMBNAILING_ERROR_DOMAIN b.ERROR_UNKNOWN_SCHEME_OR_MIME
      ("Failed to load URI \"" ++ uri ++ "\": " ++ message) w
  | .ok contents =>
    let task_data := { task_data with contents := contents, length := contents.length }
    match g_task_return_error_if_cancelled task w with
    | some w => w
    | none => g_task_run_in_thread b boot_rom task task_data w

/-- GLib's `g_file_load_contents_async` on `g_file_new_for_uri(uri)`: the load is
started and `on_file_ready` is called back with its outcome `res`. -/
def g_file_load_contents_async (b : Build) (boot_rom : List Nat) (res : ReadOutcome)
    (uri : String) (task : GTask) (task_data : TaskData) (w : World) : World :=
  on_file_ready b boot_rom res task task_data { w with loads := w.loads ++ [uri] }

/-- The entry point `start_thumbnailing`. Besides the C arguments it takes the
inputs of the model: the build parameters, the global `boot_rom`, and the outcome
`res` that the file load will have if it is started. -/
def start_thumbnailing (b : Build) (boot_rom : List Nat) (res : ReadOutcome)
    (handle : Nat) (cancellable : GCancellable) (is_urgent : Bool) (uri : String)
    (mime_type : Option String) (w : World) : World :=
  let w := g_signal_emit_by_name w (.started handle)
  let task : GTask :=
    { name := uri
      cancellable := cancellable
      priority := if is_urgent then G_PRIORITY_HIGH else G_PRIORITY_DEFAULT
      handle := handle
      result := .pending }
  match classify mime_type with
  | none =>
    g_task_return_new_error task THUMBNAILING_ERROR_DOMAIN b.ERROR_UNKNOWN_SCHEME_OR_MIME
      ("Unsupported MIME type " ++ mime_type.getD "(null)") w
  | some kind =>
    -- `contents` starts as NULL; `length` is left unset in C and written by the load.
    let task_data : TaskData := { contents := [], length := 0, kind := kind }
    g_file_load_contents_async b boot_rom res uri task task_data w

/-- The whole life of one request, from a fresh world. -/
def run (b : Build) (boot_rom : List Nat) (res : ReadOutcome) (handle : Nat)
    (cancellable : GCancellable) (is_urgent : Bool) (uri : String)
    (mime_type : Option String) : World :=
  start_thumbnailing b boot_rom res handle cancellable is_urgent uri mime_type World.init

/-! ## Vocabulary of the statements -/

/-- The task that `start_thumbnailing` creates. -/
def newTask (handle : Nat) (cancellable : GCancellable) (is_urgent : Bool) (uri : String) :
    GTask :=
  { name := uri
    cancellable := cancellable
    priority := if is_urgent then G_PRIORITY_HIGH else G_PRIORITY_DEFAULT
    handle := handle
    result := .pending }

/-- The world in which a request is handed to the next stage: `started` has been
emitted and, when `loaded`, the file load has been started. -/
def startedWorld (handle : Nat) (uri : String) (loaded : Bool) : World :=
  { World.init with
    signals := [.started handle]
    loads := if loaded then [uri] else [] }

/-- The world after a normal end of the request: `mid` is what was emitted between
`started` and `finished`. -/
def ended (w : World) (handle : Nat) (mid : List Signal) : World :=
  { w with
    signals := w.signals ++ mid ++ [.finished handle]
    retired := w.retired ++ [handle] }

/-- Whether a signal is a `ready`. -/
def Signal.isReady : Signal → Bool
  | .ready _ _ => true
  | _ => false

/-- Whether a signal is an `error`. -/
def Signal.isError : Signal → Bool
  | .error _ _ _ _ => true
  | _ => false

/-- Whether a signal is a `finished`. -/
def Signal.isFinished : Signal → Bool
  | .finished _ => true
  | _ => false

/-- The codes of the `error` signals of a world, in order. -/
def errorCodes (w : World) : List Int :=
  w.signals.filterMap fun s =>
    match s with
    | .error _ _ code _ => some code
    | _ => none

/-- A sample build: an LP64 target, with the first enumerator for the error code. -/
def lp64 : Build :=
  { ERROR_UNKNOWN_SCHEME_OR_MIME := 0, DATA_DIR := "/usr/share/sameboy", sizeof_char_ptr := 8 }

/-- A sample build for a target with 4-byte pointers. -/
def ilp32 : Build :=
  { ERROR_UNKNOWN_SCHEME_OR_MIME := 0, DATA_DIR := "/usr/share/sameboy", sizeof_char_ptr := 4 }

/-- The result that the code completes the task of a request with, read off the
`g_task_return_*` call that each path makes: `g_task_return_new_error` in
`start_thumbnailing` for an unsupported kind, `g_task_return_new_error` in
`on_file_ready` for a failed load, `g_task_return_error_if_cancelled` in
`on_file_ready` for a token signalled when the load completes, and
`g_task_return_boolean(task, TRUE)` at the end of `generate_thumbnail`. A request that
enters `generate_thumbnail` with `KIND_ISX` is aborted before any return: its task
stays pending. -/
def completedResult (b : Build) (res : ReadOutcome) (c : GCancellable) (uri : String)
    (mime_type : Option String) : TaskResult :=
  match classify mime_type with
  | none =>
    .error
      { domain := THUMBNAILING_ERROR_DOMAIN
        code := b.ERROR_UNKNOWN_SCHEME_OR_MIME
        message := "Unsupported MIME type " ++ mime_type.getD "(null)" }
  | some kind =>
    match res with
    | .failed cause =>
      .error
        { domain := THUMBNAILING_ERROR_DOMAIN
          code := b.ERROR_UNKNOWN_SCHEME_OR_MIME
          message := "Failed to load URI \"" ++ uri ++ "\": " ++ cause }
    | .ok _ =>
      if g_cancellable_is_cancelled c .fileReady then .error cancelledError
      else if kind = .KIND_ISX then .pending
      else .boolean true

/-- The task of a request as it is when `on_thumbnailing_end` is dispatched: the task
that `start_thumbnailing` creates, completed with `completedResult`. -/
def completedTask (b : Build) (res : ReadOutcome) (handle : Nat) (c : GCancellable)
    (is_urgent : Bool) (uri : String) (mime_type : Option String) : GTask :=
  { newTask handle c is_urgent uri with result := completedResult b res c uri mime_type }

/-- How the signals `mid` emitted between `started` and `finished` relate to the task
that `on_thumbnailing_end` runs on: at most one signal, `ready` exactly when the task
propagates as success, `error` exactly when it is a failure and the token is not
signalled at the check, and then with the code and message of the task's error. -/
def MidSpec (task : GTask) (mid : List Signal) : Prop :=
  (mid = [] ∨ mid = [.ready task.handle task.name]
    ∨ ∃ code message, mid = [.error task.handle task.name code message])
  ∧ (mid = [.ready task.handle task.name] ↔ (g_task_propagate_boolean task).1 = true)
  ∧ ((∃ code message, mid = [.error task.handle task.name code message]) ↔
      ((g_task_propagate_boolean task).1 = false
        ∧ g_cancellable_is_cancelled task.cancellable .errorCheck = false))
  ∧ ((∃ code message, mid = [.error task.handle task.name code message]) ↔
      ((∃ e, task.result = .error e)
        ∧ g_cancellable_is_cancelled task.cancellable .errorCheck = false))
  ∧ (∀ code message, mid = [.error task.handle task.name code message] →
      ∃ e, task.result = .error e ∧ e.code = code ∧ e.message = message)

/-! ## Basic facts -/

theorem strcmp_eq_zero_iff (s t : List Char) : strcmp s t = 0 ↔ s = t := by
  induction s generalizing t with
  | nil => cases t <;> simp [strcmp]
  | cons a as ih =>
    cases t with
    | nil => simp [strcmp]
    | cons b bs =>
      by_cases hab : a = b
      · simp [strcmp, hab, ih]
      · by_cases hlt : a.toNat < b.toNat <;> simp [strcmp, hab, hlt]

theorem g_strcmp0_eq_zero_iff (a b : Option String) : g_strcmp0 a b = 0 ↔ a = b := by
  cases a <;> cases b <;> simp [g_strcmp0, strcmp_eq_zero_iff, String.ext_iff]

theorem classify_eq_none_iff (m : Option String) :
    classify m = none ↔
      (m ≠ some "application/x-gameboy-color-rom" ∧ m ≠ some "application/x-gameboy-rom"
        ∧ m ≠ some "application/x-gameboy-isx") := by
  unfold classify
  simp only [g_strcmp0_eq_zero_iff]
  split_ifs with h1 h2 h3 <;> simp_all

theorem extension_at_end {t s u : List Char} (hs : s ≠ []) (h : t ++ s = u) :
    t <+: u ∧ t.length < u.length := by
  subst h
  refine ⟨List.prefix_append t s, ?_⟩
  have : 0 < s.length := List.length_pos.mpr hs
  simp only [List.length_append]
  omega

theorem extension_at_front {t s u : List Char} (hs : s ≠ []) (h : s ++ t = u) :
    t <:+ u ∧ t.length < u.length := by
  subst h
  refine ⟨List.suffix_append s t, ?_⟩
  have : 0 < s.length := List.length_pos.mpr hs
  simp only [List.length_append]
  omega

theorem cancelled_propagate_of_fileReady {c : GCancellable}
    (h : g_cancellable_is_cancelled c .fileReady = true) :
    g_cancellable_is_cancelled c .propagate = true := by
  cases c with
  | none => simp [g_cancellable_is_cancelled] at h
  | some k =>
    simp only [g_cancellable_is_cancelled, Point.idx, decide_eq_true_eq] at h ⊢
    omega

theorem cancelled_errorCheck_of_propagate {c : GCancellable}
    (h : g_cancellable_is_cancelled c .propagate = true) :
    g_cancellable_is_cancelled c .errorCheck = true := by
  cases c with
  | none => simp [g_cancellable_is_cancelled] at h
  | some k =>
    simp only [g_cancellable_is_cancelled, Point.idx, decide_eq_true_eq] at h ⊢
    omega

theorem on_thumbnailing_end_error (task : GTask) (e : GError) (w : World)
    (h : task.result = .error e) :
    on_thumbnailing_end task w =
      ended w task.handle
        (if g_cancellable_is_cancelled task.cancellable .errorCheck then []
         else [.error task.handle task.name e.code e.message]) := by
  cases hp : g_cancellable_is_cancelled task.cancellable .propagate
  · cases he : g_cancellable_is_cancelled task.cancellable .errorCheck <;>
      simp [on_thumbnailing_end, g_task_propagate_boolean, hp, he, h, ended,
        g_signal_emit_by_name, finished_task]
  · have he := cancelled_errorCheck_of_propagate hp
    simp [on_thumbnailing_end, g_task_propagate_boolean, hp, he, ended,
      g_signal_emit_by_name, finished_task]

theorem on_thumbnailing_end_true (task : GTask) (w : World)
    (h : task.result = .boolean true) :
    on_thumbnailing_end task w =
      ended w task.handle
        (if g_cancellable_is_cancelled task.cancellable .propagate then []
         else [.ready task.handle task.name]) := by
  cases hp : g_cancellable_is_cancelled task.cancellable .propagate
  · simp [on_thumbnailing_end, g_task_propagate_boolean, hp, h, ended,
      g_signal_emit_by_name, finished_task]
  · have he := cancelled_errorCheck_of_propagate hp
    simp [on_thumbnailing_end, g_task_propagate_boolean, hp, he, ended,
      g_signal_emit_by_name, finished_task]

theorem run_unsupported (b : Build) (boot_rom : List Nat) (res : ReadOutcome) (handle : Nat)
    (c : GCancellable) (is_urgent : Bool) (uri : String) (mime_type : Option String)
    (hk : classify mime_type = none) :
    run b boot_rom res handle c is_urgent uri mime_type =
      on_thumbnailing_end
        { newTask handle c is_urgent uri with
          result := .error
            { domain := THUMBNAILING_ERROR_DOMAIN
              code := b.ERROR_UNKNOWN_SCHEME_OR_MIME
              message := "Unsupported MIME type " ++ mime_type.getD "(null)" } }
        (startedWorld handle uri false) := by
  simp [run, start_thumbnailing, hk, g_task_return_new_error, newTask, startedWorld,
    g_signal_emit_by_name, World.init]

theorem run_load_failed (b : Build) (boot_rom : List Nat) (cause : String) (handle : Nat)
    (c : GCancellable) (is_urgent : Bool) (uri : String) (mime_type : Option String)
    (kind : FileKind) (hk : classify mime_type = some kind) :
    run b boot_rom (.failed cause) handle c is_urgent uri mime_type =
      on_thumbnailing_end
        { newTask handle c is_urgent uri with
          result := .error
            { domain := THUMBNAILING_ERROR_DOMAIN
              code := b.ERROR_UNKNOWN_SCHEME_OR_MIME
              message := "Failed to load URI \"" ++ uri ++ "\": " ++ cause } }
        (startedWorld handle uri true) := by
  simp [run, start_thumbnailing, hk, g_file_load_contents_async, on_file_ready,
    g_task_return_new_error, newTask, startedWorld, g_signal_emit_by_name, World.init]

theorem run_cancelled_after_load (b : Build) (boot_rom contents : List Nat) (handle : Nat)
    (c : GCancellable) (is_urgent : Bool) (uri : String) (mime_type : Option String)
    (kind : FileKind) (hk : classify mime_type = some kind)
    (hc : g_cancellable_is_cancelled c .fileReady = true) :
    run b boot_rom (.ok contents) handle c is_urgent uri mime_type =
      on_thumbnailing_end
        { newTask handle c is_urgent uri with result := .error cancelledError }
        (startedWorld handle uri true) := by
  simp [run, start_thumbnailing, hk, g_file_load_contents_async, on_file_ready,
    g_task_return_error_if_cancelled, hc, newTask, startedWorld, g_signal_emit_by_name,
    World.init]

theorem run_generated (b : Build) (boot_rom contents : List Nat) (handle : Nat)
    (c : GCancellable) (is_urgent : Bool) (uri : String) (mime_type : Option String)
    (kind : FileKind) (hk : classify mime_type = some kind) (hi : kind ≠ .KIND_ISX)
    (hc : g_cancellable_is_cancelled c .fileReady = false) :
    run b boot_rom (.ok contents) handle c is_urgent uri mime_type =
      on_thumbnailing_end
        { newTask handle c is_urgent uri with result := .boolean true }
        { startedWorld handle uri true with
          engine :=
            [.GB_init, .GB_load_boot_rom_from_buffer boot_rom b.sizeof_char_ptr,
              .GB_load_rom_from_buffer contents contents.length, .GB_free] } := by
  simp [run, start_thumbnailing, hk, g_file_load_contents_async, on_file_ready,
    g_task_return_error_if_cancelled, hc, g_task_run_in_thread, generate_thumbnail, hi,
    g_task_return_boolean, callEngine, newTask, startedWorld, g_signal_emit_by_name,
    World.init]

theorem run_isx (b : Build) (boot_rom contents : List Nat) (handle : Nat)
    (c : GCancellable) (is_urgent : Bool) (uri : String) (mime_type : Option String)
    (hk : classify mime_type = some .KIND_ISX)
    (hc : g_cancellable_is_cancelled c .fileReady = false) :
    run b boot_rom (.ok contents) handle c is_urgent uri mime_type =
      { startedWorld handle uri true with
        engine := [.GB_init, .GB_load_boot_rom_from_buffer boot_rom b.sizeof_char_ptr]
        aborted := true } := by
  simp [run, start_thumbnailing, hk, g_file_load_contents_async, on_file_ready,
    g_task_return_error_if_cancelled, hc, g_task_run_in_thread, generate_thumbnail,
    callEngine, abort, startedWorld, g_signal_emit_by_name, World.init]

theorem failed_ne_unsupported (uri cause tail : String) :
    "Failed to load URI \"" ++ uri ++ "\": " ++ cause ≠ "Unsupported MIME type " ++ tail := by
  intro h
  have hd := congrArg String.data h
  simp only [String.data_append] at hd
  have h0 := congrArg List.head? hd
  simp at h0

theorem on_thumbnailing_end_engine (task : GTask) (w : World) :
    (on_thumbnailing_end task w).engine = w.engine := by
  unfold on_thumbnailing_end
  simp only [g_signal_emit_by_name, finished_task, abort]
  split_ifs
  · rfl
  · split <;> rfl
  · rfl

theorem midSpec_error (task : GTask) (e : GError) (h : task.result = .error e) :
    MidSpec task
      (if g_cancellable_is_cancelled task.cancellable .errorCheck then []
       else [.error task.handle task.name e.code e.message]) := by
  unfold MidSpec
  cases hp : g_cancellable_is_cancelled task.cancellable .propagate
  · cases he : g_cancellable_is_cancelled task.cancellable .errorCheck <;>
      simp [g_task_propagate_boolean, hp, he, h]
  · have he := cancelled_errorCheck_of_propagate hp
    simp [g_task_propagate_boolean, hp, he, h]

theorem midSpec_true (task : GTask) (h : task.result = .boolean true) :
    MidSpec task
      (if g_cancellable_is_cancelled task.cancellable .propagate then []
       else [.ready task.handle task.name]) := by
  unfold MidSpec
  cases hp : g_cancellable_is_cancelled task.cancellable .propagate
  · cases he : g_cancellable_is_cancelled task.cancellable .errorCheck <;>
      simp [g_task_propagate_boolean, hp, he, h]
  · have he := cancelled_errorCheck_of_propagate hp
    simp [g_task_propagate_boolean, hp, he, h]

theorem trace_of_end (task : GTask) (w0 : World) (mid : List Signal) (w : World)
    (h5 : w0.signals = [.started task.handle])
    (h6 : w = on_thumbnailing_end task w0)
    (h7 : on_thumbnailing_end task w0 = ended w0 task.handle mid)
    (h8 : MidSpec task mid) :
    ∃ m : List Signal,
      w.signals = .started task.handle :: (m ++ [.finished task.handle])
      ∧ w.retired = w0.retired ++ [task.handle]
      ∧ w.aborted = w0.aborted
      ∧ MidSpec task m :=
  ⟨mid, by rw [h6, h7]; simp [ended, h5], by rw [h6, h7]; simp [ended],
    by rw [h6, h7]; simp [ended], h8⟩

/-! ## Unsupported declared kinds -/

/-- C1, as stated, fails: for the unsupported kind "text/plain" with a token that is
already signalled, no file load is started but the signals are `started`, `finished`
only; there is no `error` between them. -/
theorem unsupported_kind_cancelled_emits_no_error :
    classify (some "text/plain") = none
    ∧ (run lp64 [] (.ok []) 7 (some 0) false "file:///a.gb" (some "text/plain")).signals
        = [.started 7, .finished 7]
    ∧ ¬ ∃ message,
        (run lp64 [] (.ok []) 7 (some 0) false "file:///a.gb" (some "text/plain")).signals
          = [.started 7,
              .error 7 "file:///a.gb" lp64.ERROR_UNKNOWN_SCHEME_OR_MIME message,
              .finished 7] := by
  have h : (run lp64 [] (.ok []) 7 (some 0) false "file:///a.gb" (some "text/plain")).signals
        = [.started 7, .finished 7] := by decide
  refine ⟨by decide, h, ?_⟩
  rw [h]
  simp

/-- C1, amended: for every declared kind that is not one of the three recognised MIME
types, and every handle, locator, urgency, load outcome and token, `start_thumbnailing`
starts no file load and never enters generation; the signals are exactly `started`,
`error` with code `ERROR_UNKNOWN_SCHEME_OR_MIME`, `finished` when the token is not
signalled at the check of `on_thumbnailing_end`, and exactly `started`, `finished` when
it is. -/
theorem unsupported_kind_trace (b : Build) (boot_rom : List Nat) (res : ReadOutcome)
    (handle : Nat) (c : GCancellable) (is_urgent : Bool) (uri : String)
    (mime_type : Option String)
    (hm : mime_type ≠ some "application/x-gameboy-color-rom"
      ∧ mime_type ≠ some "application/x-gameboy-rom"
      ∧ mime_type ≠ some "application/x-gameboy-isx") :
    (run b boot_rom res handle c is_urgent uri mime_type).loads = []
    ∧ (run b boot_rom res handle c is_urgent uri mime_type).engine = []
    ∧ (run b boot_rom res handle c is_urgent uri mime_type).aborted = false
    ∧ (run b boot_rom res handle c is_urgent uri mime_type).signals =
        if g_cancellable_is_cancelled c .errorCheck then
          [.started handle, .finished handle]
        else
          [.started handle,
            .error handle uri b.ERROR_UNKNOWN_SCHEME_OR_MIME
              ("Unsupported MIME type " ++ mime_type.getD "(null)"),
            .finished handle] := by
  have hk := (classify_eq_none_iff mime_type).mpr hm
  rw [run_unsupported b boot_rom res handle c is_urgent uri mime_type hk,
    on_thumbnailing_end_error _ _ _ rfl]
  cases he : g_cancellable_is_cancelled c .errorCheck <;>
    simp [ended, startedWorld, newTask, World.init, he]

/-- The amended C1 at "text/plain" with a token that is never signalled. -/
theorem unsupported_kind_trace_witness :
    ((some "text/plain" : Option String) ≠ some "application/x-gameboy-color-rom"
      ∧ (some "text/plain" : Option String) ≠ some "application/x-gameboy-rom"
      ∧ (some "text/plain" : Option String) ≠ some "application/x-gameboy-isx")
    ∧ (run lp64 [] (.ok [0]) 7 none true "file:///a.txt" (some "text/plain")).loads = []
    ∧ (run lp64 [] (.ok [0]) 7 none true "file:///a.txt" (some "text/plain")).engine = []
    ∧ (run lp64 [] (.ok [0]) 7 none true "file:///a.txt" (some "text/plain")).aborted = false
    ∧ (run lp64 [] (.ok [0]) 7 none true "file:///a.txt" (some "text/plain")).signals =
        if g_cancellable_is_cancelled none .errorCheck then
          [.started 7, .finished 7]
        else
          [.started 7,
            .error 7 "file:///a.txt" lp64.ERROR_UNKNOWN_SCHEME_OR_MIME
              ("Unsupported MIME type " ++ (some "text/plain" : Option String).getD "(null)"),
            .finished 7] :=
  ⟨by decide,
    unsupported_kind_trace lp64 [] (.ok [0]) 7 none true "file:///a.txt" (some "text/plain")
      (by decide)⟩

/-! ## The unimplemented kind -/

/-- C2 at its failing input: a request of kind "application/x-gameboy-isx" whose file
loads and whose token is never signalled. The process is aborted inside
`generate_thumbnail`; the only signal is `started`, and `finished` is never emitted. -/
theorem isx_request_never_finished :
    classify (some "application/x-gameboy-isx") = some .KIND_ISX
    ∧ (run lp64 [] (.ok [0]) 7 none false "file:///a.isx"
        (some "application/x-gameboy-isx")).aborted = true
    ∧ (run lp64 [] (.ok [0]) 7 none false "file:///a.isx"
        (some "application/x-gameboy-isx")).signals = [.started 7]
    ∧ (run lp64 [] (.ok [0]) 7 none false "file:///a.isx"
        (some "application/x-gameboy-isx")).signals.count (.finished 7) = 0
    ∧ (run lp64 [] (.ok [0]) 7 none false "file:///a.isx"
        (some "application/x-gameboy-isx")).retired = [] := by
  decide

/-- C4 at its failing inputs: every request of kind "application/x-gameboy-isx" whose
file loads and whose token is not signalled reaches `g_assert_not_reached` after the
boot ROM was handed to the core. The process is aborted there: the world ends with
`started` as its only signal, so neither `error` nor `finished` is emitted. -/
theorem isx_generation_aborts (b : Build) (boot_rom contents : List Nat) (handle : Nat)
    (is_urgent : Bool) (uri : String) :
    run b boot_rom (.ok contents) handle none is_urgent uri (some "application/x-gameboy-isx")
      = { signals := [.started handle]
          loads := [uri]
          engine := [.GB_init, .GB_load_boot_rom_from_buffer boot_rom b.sizeof_char_ptr]
          retired := []
          aborted := true }
    ∧ (∀ s ∈ (run b boot_rom (.ok contents) handle none is_urgent uri
          (some "application/x-gameboy-isx")).signals,
        s.isError = false ∧ s.isFinished = false) := by
  have hk : classify (some "application/x-gameboy-isx") = some .KIND_ISX := by decide
  rw [run_isx b boot_rom contents handle none is_urgent uri _ hk rfl]
  simp [startedWorld, World.init, Signal.isError, Signal.isFinished]

/-! ## Cancellation before the load completes -/

/-- C3: for every request with a recognised kind, whatever the outcome of the load, if
the token is signalled before the file load completes then neither `ready` nor `error`
is emitted and `finished` is emitted exactly once: the signals are `started`,
`finished`. -/
theorem cancelled_before_load_is_quiet (b : Build) (boot_rom : List Nat) (res : ReadOutcome)
    (handle : Nat) (c : GCancellable) (is_urgent : Bool) (uri : String)
    (mime_type : Option String)
    (hk : ∃ kind, classify mime_type = some kind)
    (hc : g_cancellable_is_cancelled c .fileReady = true) :
    (∀ s ∈ (run b boot_rom res handle c is_urgent uri mime_type).signals,
        s.isReady = false ∧ s.isError = false)
    ∧ (run b boot_rom res handle c is_urgent uri mime_type).signals.count (.finished handle) = 1
    ∧ ((run b boot_rom res handle c is_urgent uri mime_type).signals.filter
        Signal.isFinished).length = 1
    ∧ (run b boot_rom res handle c is_urgent uri mime_type).signals
        = [.started handle, .finished handle] := by
  obtain ⟨kind, hk⟩ := hk
  have he := cancelled_errorCheck_of_propagate (cancelled_propagate_of_fileReady hc)
  have hs : (run b boot_rom res handle c is_urgent uri mime_type).signals
      = [.started handle, .finished handle] := by
    cases res with
    | ok contents =>
      rw [run_cancelled_after_load b boot_rom contents handle c is_urgent uri mime_type kind
        hk hc, on_thumbnailing_end_error _ _ _ rfl]
      simp [ended, startedWorld, newTask, World.init, he]
    | failed cause =>
      rw [run_load_failed b boot_rom cause handle c is_urgent uri mime_type kind hk,
        on_thumbnailing_end_error _ _ _ rfl]
      simp [ended, startedWorld, newTask, World.init, he]
  rw [hs]
  simp [Signal.isReady, Signal.isError, Signal.isFinished, List.count_cons]

/-- C3 at a Game Boy Color ROM whose load fails, with the token signalled from the
start. -/
theorem cancelled_before_load_is_quiet_witness :
    (∃ kind, classify (some "application/x-gameboy-color-rom") = some kind)
    ∧ g_cancellable_is_cancelled (some 0) .fileReady = true
    ∧ (∀ s ∈ (run lp64 [] (.failed "Operation was cancelled") 7 (some 0) false
          "file:///a.gbc" (some "application/x-gameboy-color-rom")).signals,
        s.isReady = false ∧ s.isError = false)
    ∧ (run lp64 [] (.failed "Operation was cancelled") 7 (some 0) false "file:///a.gbc"
        (some "application/x-gameboy-color-rom")).signals.count (.finished 7) = 1
    ∧ ((run lp64 [] (.failed "Operation was cancelled") 7 (some 0) false "file:///a.gbc"
        (some "application/x-gameboy-color-rom")).signals.filter Signal.isFinished).length = 1
    ∧ (run lp64 [] (.failed "Operation was cancelled") 7 (some 0) false "file:///a.gbc"
        (some "application/x-gameboy-color-rom")).signals = [.started 7, .finished 7] :=
  ⟨⟨.KIND_GBC, by decide⟩, by decide,
    cancelled_before_load_is_quiet lp64 [] (.failed "Operation was cancelled") 7 (some 0)
      false "file:///a.gbc" (some "application/x-gameboy-color-rom")
      ⟨.KIND_GBC, by decide⟩ (by decide)⟩

/-! ## Kind classification is an exact match -/

/-- C5: the classification chain of `start_thumbnailing` is an exact string match. It
yields `KIND_GBC`, `KIND_GB`, `KIND_ISX` exactly for the three recognised strings and
takes the unsupported branch for everything else: a NULL string, a case variant, and
every string that properly extends a recognised type at its end or at its front. -/
theorem classify_exact_match (m : Option String) :
    (classify m = some .KIND_GBC ↔ m = some "application/x-gameboy-color-rom")
    ∧ (classify m = some .KIND_GB ↔ m = some "application/x-gameboy-rom")
    ∧ (classify m = some .KIND_ISX ↔ m = some "application/x-gameboy-isx")
    ∧ (classify m = none ↔
        (m ≠ some "application/x-gameboy-color-rom" ∧ m ≠ some "application/x-gameboy-rom"
          ∧ m ≠ some "application/x-gameboy-isx"))
    ∧ classify none = none
    ∧ classify (some "Application/X-Gameboy-Rom") = none
    ∧ (∀ t ∈ ["application/x-gameboy-color-rom", "application/x-gameboy-rom",
          "application/x-gameboy-isx"],
        ∀ s : String, s ≠ "" →
          classify (some (t ++ s)) = none ∧ classify (some (s ++ t)) = none) := by
  refine ⟨?_, ?_, ?_, classify_eq_none_iff m, by decide, by decide, ?_⟩
  · unfold classify
    simp only [g_strcmp0_eq_zero_iff]
    split_ifs with h1 h2 h3 <;> simp_all
  · unfold classify
    simp only [g_strcmp0_eq_zero_iff]
    split_ifs with h1 h2 h3 <;> simp_all
  · unfold classify
    simp only [g_strcmp0_eq_zero_iff]
    split_ifs with h1 h2 h3 <;> simp_all
  · intro t ht s hs
    have hne : s.data ≠ [] := fun h => hs (String.ext_iff.mpr h)
    simp only [List.mem_cons, List.mem_singleton, List.not_mem_nil, or_false] at ht
    simp only [classify_eq_none_iff, ne_eq, Option.some.injEq, String.ext_iff,
      String.data_append]
    rcases ht with rfl | rfl | rfl
    all_goals
      refine ⟨⟨?_, ?_, ?_⟩, ⟨?_, ?_, ?_⟩⟩
      all_goals
        intro h
        first
          | exact absurd (extension_at_end hne h) (by decide)
          | exact absurd (extension_at_front hne h) (by decide)

/-! ## Load failures -/

/-- C6, as stated, fails: the `error` of a failed load and the `error` of an
unsupported declared kind carry the same code, `ERROR_UNKNOWN_SCHEME_OR_MIME`. -/
theorem load_failure_code_same_as_unsupported :
    classify (some "application/x-gameboy-rom") = some .KIND_GB
    ∧ classify (some "text/plain") = none
    ∧ errorCodes (run lp64 [] (.failed "No such file or directory") 7 none false
        "file:///a.gb" (some "application/x-gameboy-rom"))
      = [lp64.ERROR_UNKNOWN_SCHEME_OR_MIME]
    ∧ errorCodes (run lp64 [] (.failed "No such file or directory") 7 none false
        "file:///a.gb" (some "text/plain"))
      = [lp64.ERROR_UNKNOWN_SCHEME_OR_MIME] := by
  decide

/-- C6, amended: when the file load of a request with a recognised kind fails and the
token is not signalled, the signals are `started`, one `error`, `finished`; the `error`
carries the locator and a message made of the locator and the underlying cause. Its
code is `ERROR_UNKNOWN_SCHEME_OR_MIME`, the same code as the `error` reported for an
unsupported declared kind; the two reports differ in their message only. -/
theorem load_failure_error_signal (b : Build) (boot_rom : List Nat) (cause : String)
    (handle : Nat) (c : GCancellable) (is_urgent : Bool) (uri : String)
    (mime_type : Option String)
    (hk : ∃ kind, classify mime_type = some kind)
    (hc : g_cancellable_is_cancelled c .errorCheck = false) :
    (run b boot_rom (.failed cause) handle c is_urgent uri mime_type).signals
      = [.started handle,
          .error handle uri b.ERROR_UNKNOWN_SCHEME_OR_MIME
            ("Failed to load URI \"" ++ uri ++ "\": " ++ cause),
          .finished handle]
    ∧ (∀ (res : ReadOutcome) (other : Option String), classify other = none →
        (run b boot_rom res handle c is_urgent uri other).signals
          = [.started handle,
              .error handle uri b.ERROR_UNKNOWN_SCHEME_OR_MIME
                ("Unsupported MIME type " ++ other.getD "(null)"),
              .finished handle]
        ∧ "Failed to load URI \"" ++ uri ++ "\": " ++ cause
            ≠ "Unsupported MIME type " ++ other.getD "(null)") := by
  obtain ⟨kind, hk⟩ := hk
  refine ⟨?_, ?_⟩
  · rw [run_load_failed b boot_rom cause handle c is_urgent uri mime_type kind hk,
      on_thumbnailing_end_error _ _ _ rfl]
    simp [ended, startedWorld, newTask, World.init, hc]
  · intro res other ho
    refine ⟨?_, failed_ne_unsupported uri cause _⟩
    rw [run_unsupported b boot_rom res handle c is_urgent uri other ho,
      on_thumbnailing_end_error _ _ _ rfl]
    simp [ended, startedWorld, newTask, World.init, hc]

/-- The amended C6 at a Game Boy ROM that does not exist, with a token that is never
signalled. -/
theorem load_failure_error_signal_witness :
    (∃ kind, classify (some "application/x-gameboy-rom") = some kind)
    ∧ g_cancellable_is_cancelled none .errorCheck = false
    ∧ (run lp64 [] (.failed "No such file or directory") 7 none false "file:///a.gb"
        (some "application/x-gameboy-rom")).signals
      = [.started 7,
          .error 7 "file:///a.gb" lp64.ERROR_UNKNOWN_SCHEME_OR_MIME
            ("Failed to load URI \"" ++ "file:///a.gb" ++ "\": "
              ++ "No such file or directory"),
          .finished 7] :=
  ⟨⟨.KIND_GB, by decide⟩, by decide,
    (load_failure_error_signal lp64 [] "No such file or directory" 7 none false
      "file:///a.gb" (some "application/x-gameboy-rom") ⟨.KIND_GB, by decide⟩
      (by decide)).1⟩

/-! ## Boot ROM -/

/-- C7: `load_boot_roms` completes normally if and only if the read of the boot ROM
file succeeds and the number of bytes read is `BOOT_ROM_SIZE`, which is 2304; it then
keeps the bytes read. In every other case (a read error, or any other length) it ends
in the fatal `g_error`. -/
theorem load_boot_roms_completes_iff (b : Build) (read : ReadOutcome) :
    BOOT_ROM_SIZE = 2304
    ∧ (completesNormally (load_boot_roms b read) = true ↔
        ∃ contents, read = .ok contents ∧ contents.length = BOOT_ROM_SIZE)
    ∧ ((∃ contents, read = .ok contents ∧ contents.length = BOOT_ROM_SIZE) ∨
        ∃ message, load_boot_roms b read = .error message)
    ∧ (∀ contents, read = .ok contents → contents.length = BOOT_ROM_SIZE →
        load_boot_roms b read = .ok contents) := by
  refine ⟨by decide, ?_, ?_, ?_⟩
  · cases read with
    | ok contents =>
      by_cases hl : contents.length = BOOT_ROM_SIZE <;>
        simp [load_boot_roms, completesNormally, hl]
    | failed message => simp [load_boot_roms, completesNormally]
  · cases read with
    | ok contents =>
      by_cases hl : contents.length = BOOT_ROM_SIZE <;> simp [load_boot_roms, hl]
    | failed message => simp [load_boot_roms]
  · intro contents hr hl
    subst hr
    simp [load_boot_roms, hl]

/-- C9 at its failing inputs: on every build, the size that `generate_thumbnail` hands
to the core with the boot ROM buffer is `sizeof(boot_rom)`, the size of a pointer: 8 on
an LP64 target and 4 on a 32-bit one, never `BOOT_ROM_SIZE`. A Game Boy ROM request on
LP64 hands over 8 bytes of a 2304-byte boot ROM. -/
theorem boot_rom_size_handed_is_pointer_size (b : Build) (boot_rom : List Nat) (task : GTask)
    (task_data : TaskData) :
    (generate_thumbnail b boot_rom task task_data World.init).engine.take 2
      = [.GB_init, .GB_load_boot_rom_from_buffer boot_rom b.sizeof_char_ptr]
    ∧ lp64.sizeof_char_ptr = 8 ∧ ilp32.sizeof_char_ptr = 4
    ∧ lp64.sizeof_char_ptr ≠ BOOT_ROM_SIZE ∧ ilp32.sizeof_char_ptr ≠ BOOT_ROM_SIZE
    ∧ (run lp64 (List.replicate BOOT_ROM_SIZE 0) (.ok [0]) 7 none false "file:///a.gb"
        (some "application/x-gameboy-rom")).engine
      = [.GB_init, .GB_load_boot_rom_from_buffer (List.replicate BOOT_ROM_SIZE 0) 8,
          .GB_load_rom_from_buffer [0] 1, .GB_free] := by
  refine ⟨?_, rfl, rfl, by decide, by decide, ?_⟩
  · by_cases hk : task_data.kind = .KIND_ISX
    · simp [generate_thumbnail, hk, callEngine, abort, World.init]
    · simp [generate_thumbnail, hk, callEngine, g_task_return_boolean,
        on_thumbnailing_end_engine, World.init]
  · have hk : classify (some "application/x-gameboy-rom") = some .KIND_GB := by decide
    rw [run_generated lp64 _ [0] 7 none false _ _ .KIND_GB hk (by decide) rfl,
      on_thumbnailing_end_engine]
    rfl

/-! ## Cancellation observed after the load -/

/-- C8: when the file load of a request with a recognised kind succeeds but the token
is signalled at that point, `on_file_ready` does not schedule `generate_thumbnail` (no
call into the core is made) and no `error` is reported: the only signal after `started`
is `finished`. -/
theorem cancelled_after_load_skips_generation (b : Build) (boot_rom contents : List Nat)
    (handle : Nat) (c : GCancellable) (is_urgent : Bool) (uri : String)
    (mime_type : Option String)
    (hk : ∃ kind, classify mime_type = some kind)
    (hc : g_cancellable_is_cancelled c .fileReady = true) :
    run b boot_rom (.ok contents) handle c is_urgent uri mime_type
      = { signals := [.started handle, .finished handle]
          loads := [uri]
          engine := []
          retired := [handle]
          aborted := false }
    ∧ (∀ (task : GTask) (task_data : TaskData) (w : World), task.cancellable = c →
        (on_file_ready b boot_rom (.ok contents) task task_data w).engine = w.engine
        ∧ (on_file_ready b boot_rom (.ok contents) task task_data w).signals
            = w.signals ++ [.finished task.handle]) := by
  obtain ⟨kind, hk⟩ := hk
  have he := cancelled_errorCheck_of_propagate (cancelled_propagate_of_fileReady hc)
  refine ⟨?_, ?_⟩
  · rw [run_cancelled_after_load b boot_rom contents handle c is_urgent uri mime_type kind
      hk hc, on_thumbnailing_end_error _ _ _ rfl]
    simp [ended, startedWorld, newTask, World.init, he]
  · intro task task_data w ht
    subst ht
    simp only [on_file_ready, g_task_return_error_if_cancelled, hc, if_true]
    rw [on_thumbnailing_end_error _ _ _ rfl]
    simp [ended, he]

/-- C8 at an ISX file that loads, with the token signalled from the start: the request
ends quietly and `generate_thumbnail` is not entered. -/
theorem cancelled_after_load_skips_generation_witness :
    (∃ kind, classify (some "application/x-gameboy-isx") = some kind)
    ∧ g_cancellable_is_cancelled (some 0) .fileReady = true
    ∧ run lp64 [] (.ok [1, 2, 3]) 7 (some 0) true "file:///a.isx"
        (some "application/x-gameboy-isx")
      = { signals := [.started 7, .finished 7]
          loads := ["file:///a.isx"]
          engine := []
          retired := [7]
          aborted := false } :=
  ⟨⟨.KIND_ISX, by decide⟩, by decide,
    (cancelled_after_load_skips_generation lp64 [] [1, 2, 3] 7 (some 0) true "file:///a.isx"
      (some "application/x-gameboy-isx") ⟨.KIND_ISX, by decide⟩ (by decide)).1⟩

/-! ## The signal sequence of a request -/

/-- C10: for every request that does not enter `generate_thumbnail` with kind
`KIND_ISX` (the kind is not ISX, or the load fails, or the token is signalled when the
load completes), the code completes the task of the request with `completedResult` and
runs `on_thumbnailing_end` on it once, after `started`. The signals of the request are
`started`, then `mid`, then `finished`, where `mid` is empty, one `ready` or one
`error`; `ready` is emitted iff that task propagates as success, and `error` iff that
task is a failure and the token is not signalled at the check of `on_thumbnailing_end`,
in which case it carries the code and message of the task's error. The handle is
retired once and the process is not aborted. -/
theorem signal_sequence_unless_isx_generated (b : Build) (boot_rom : List Nat)
    (res : ReadOutcome) (handle : Nat) (c : GCancellable) (is_urgent : Bool) (uri : String)
    (mime_type : Option String)
    (h : classify mime_type ≠ some .KIND_ISX ∨ (∃ cause, res = .failed cause)
      ∨ g_cancellable_is_cancelled c .fileReady = true) :
    (completedTask b res handle c is_urgent uri mime_type).result ≠ .pending
    ∧ (∃ w0 : World,
        w0.signals = [.started handle] ∧ w0.retired = [] ∧ w0.aborted = false
        ∧ run b boot_rom res handle c is_urgent uri mime_type
            = on_thumbnailing_end (completedTask b res handle c is_urgent uri mime_type) w0)
    ∧ (run b boot_rom res handle c is_urgent uri mime_type).retired = [handle]
    ∧ (run b boot_rom res handle c is_urgent uri mime_type).aborted = false
    ∧ ∃ mid : List Signal,
        (run b boot_rom res handle c is_urgent uri mime_type).signals
          = .started handle :: (mid ++ [.finished handle])
        ∧ (mid = [] ∨ mid = [.ready handle uri]
            ∨ ∃ code message, mid = [.error handle uri code message])
        ∧ (mid = [.ready handle uri] ↔
            (g_task_propagate_boolean
              (completedTask b res handle c is_urgent uri mime_type)).1 = true)
        ∧ ((∃ code message, mid = [.error handle uri code message]) ↔
            ((g_task_propagate_boolean
                (completedTask b res handle c is_urgent uri mime_type)).1 = false
              ∧ g_cancellable_is_cancelled c .errorCheck = false))
        ∧ ((∃ code message, mid = [.error handle uri code message]) ↔
            ((∃ e, completedResult b res c uri mime_type = .error e)
              ∧ g_cancellable_is_cancelled c .errorCheck = false))
        ∧ (∀ code message, mid = [.error handle uri code message] →
            ∃ e, completedResult b res c uri mime_type = .error e
              ∧ e.code = code ∧ e.message = message) := by
  have key : ∀ (r : TaskResult) (w0 : World) (mid : List Signal),
      completedResult b res c uri mime_type = r → r ≠ .pending →
      w0.signals = [.started handle] → w0.retired = [] → w0.aborted = false →
      run b boot_rom res handle c is_urgent uri mime_type
        = on_thumbnailing_end { newTask handle c is_urgent uri with result := r } w0 →
      on_thumbnailing_end { newTask handle c is_urgent uri with result := r } w0
        = ended w0 handle mid →
      MidSpec { newTask handle c is_urgent uri with result := r } mid →
      (completedTask b res handle c is_urgent uri mime_type).result ≠ .pending
      ∧ (∃ w0 : World,
          w0.signals = [.started handle] ∧ w0.retired = [] ∧ w0.aborted = false
          ∧ run b boot_rom res handle c is_urgent uri mime_type
              = on_thumbnailing_end (completedTask b res handle c is_urgent uri mime_type) w0)
      ∧ (run b boot_rom res handle c is_urgent uri mime_type).retired = [handle]
      ∧ (run b boot_rom res handle c is_urgent uri mime_type).aborted = false
      ∧ ∃ mid : List Signal,
          (run b boot_rom res handle c is_urgent uri mime_type).signals
            = .started handle :: (mid ++ [.finished handle])
          ∧ MidSpec (completedTask b res handle c is_urgent uri mime_type) mid := by
    intro r w0 mid hr hp hs hret hab hrun hend hmid
    have ht : completedTask b res handle c is_urgent uri mime_type
        = { newTask handle c is_urgent uri with result := r } := by
      simp [completedTask, hr]
    rw [ht]
    obtain ⟨m, hm1, hm2, hm3, hm4⟩ := trace_of_end _ w0 mid _ hs hrun hend hmid
    refine ⟨hp, ⟨w0, hs, hret, hab, hrun⟩, ?_, ?_, m, hm1, hm4⟩
    · rw [hm2, hret]
      rfl
    · rw [hm3, hab]
  have fin : (completedTask b res handle c is_urgent uri mime_type).result ≠ .pending
      ∧ (∃ w0 : World,
          w0.signals = [.started handle] ∧ w0.retired = [] ∧ w0.aborted = false
          ∧ run b boot_rom res handle c is_urgent uri mime_type
              = on_thumbnailing_end (completedTask b res handle c is_urgent uri mime_type) w0)
      ∧ (run b boot_rom res handle c is_urgent uri mime_type).retired = [handle]
      ∧ (run b boot_rom res handle c is_urgent uri mime_type).aborted = false
      ∧ ∃ mid : List Signal,
          (run b boot_rom res handle c is_urgent uri mime_type).signals
            = .started handle :: (mid ++ [.finished handle])
          ∧ MidSpec (completedTask b res handle c is_urgent uri mime_type) mid := by
    cases hk : classify mime_type with
    | none =>
      exact key _ _ _ (by simp [completedResult, hk]) (by simp) rfl rfl rfl
        (run_unsupported b boot_rom res handle c is_urgent uri mime_type hk)
        (on_thumbnailing_end_error _ _ _ rfl) (midSpec_error _ _ rfl)
    | some kind =>
      cases res with
      | failed cause =>
        exact key _ _ _ (by simp [completedResult, hk]) (by simp) rfl rfl rfl
          (run_load_failed b boot_rom cause handle c is_urgent uri mime_type kind hk)
          (on_thumbnailing_end_error _ _ _ rfl) (midSpec_error _ _ rfl)
      | ok contents =>
        cases hc : g_cancellable_is_cancelled c .fileReady with
        | true =>
          exact key _ _ _ (by simp [completedResult, hk, hc]) (by simp) rfl rfl rfl
            (run_cancelled_after_load b boot_rom contents handle c is_urgent uri mime_type
              kind hk hc)
            (on_thumbnailing_end_error _ _ _ rfl) (midSpec_error _ _ rfl)
        | false =>
          have hi : kind ≠ .KIND_ISX := by
            rcases h with h | ⟨cause, h⟩ | h
            · intro hh
              exact h (by rw [hk, hh])
            · cases h
            · rw [hc] at h
              cases h
          exact key _ _ _ (by simp [completedResult, hk, hc, hi]) (by simp) rfl rfl rfl
            (run_generated b boot_rom contents handle c is_urgent uri mime_type kind hk hi hc)
            (on_thumbnailing_end_true _ _ rfl) (midSpec_true _ rfl)
  obtain ⟨f1, f2, f3, f4, mid, f5, f6⟩ := fin
  exact ⟨f1, f2, f3, f4, mid, f5, f6⟩

/-- C10 at a failed load of a Game Boy ROM with a token that is never signalled: the
task is completed with the load error, it does not propagate as success, and the
signals are `started`, the `error` of that task, `finished`. -/
theorem signal_sequence_unless_isx_generated_witness :
    (classify (some "application/x-gameboy-rom") ≠ some .KIND_ISX
      ∨ (∃ cause, ReadOutcome.failed "No such file or directory" = .failed cause)
      ∨ g_cancellable_is_cancelled none .fileReady = true)
    ∧ completedResult lp64 (.failed "No such file or directory") none "file:///a.gb"
        (some "application/x-gameboy-rom")
      = .error
          { domain := THUMBNAILING_ERROR_DOMAIN
            code := lp64.ERROR_UNKNOWN_SCHEME_OR_MIME
            message := "Failed to load URI \"file:///a.gb\": No such file or directory" }
    ∧ (g_task_propagate_boolean
        (completedTask lp64 (.failed "No such file or directory") 7 none false
          "file:///a.gb" (some "application/x-gameboy-rom"))).1 = false
    ∧ (run lp64 [] (.failed "No such file or directory") 7 none false "file:///a.gb"
        (some "application/x-gameboy-rom")).signals
      = [.started 7,
          .error 7 "file:///a.gb" lp64.ERROR_UNKNOWN_SCHEME_OR_MIME
            "Failed to load URI \"file:///a.gb\": No such file or directory",
          .finished 7]
    ∧ (run lp64 [] (.failed "No such file or directory") 7 none false "file:///a.gb"
        (some "application/x-gameboy-rom")).retired = [7]
    ∧ ∃ mid : List Signal,
        (run lp64 [] (.failed "No such file or directory") 7 none false "file:///a.gb"
          (some "application/x-gameboy-rom")).signals
          = .started 7 :: (mid ++ [.finished 7])
        ∧ ((∃ code message, mid = [.error 7 "file:///a.gb" code message]) ↔
            ((g_task_propagate_boolean
                (completedTask lp64 (.failed "No such file or directory") 7 none false
                  "file:///a.gb" (some "application/x-gameboy-rom"))).1 = false
              ∧ g_cancellable_is_cancelled none .errorCheck = false)) :=
  have h := signal_sequence_unless_isx_generated lp64 [] (.failed "No such file or directory")
    7 none false "file:///a.gb" (some "application/x-gameboy-rom") (Or.inl (by decide))
  ⟨Or.inl (by decide), by decide, by decide, by decide, h.2.2.1,
    h.2.2.2.2.elim fun mid hm => ⟨mid, hm.1, hm.2.2.2.1⟩⟩

end XdgThumbnailer
